import Mathlib

/-!
# Verification of the wk9-opcua-modbus Modbus TCP firmware core

Shallow embedding of the pure protocol layer of `src/common.rs` and the
request-handling path of `src/modbus_2.rs`, with theorems settling the
spec's testable properties.

Conventions of the embedding:
* Machine integers (`u8`, `u16`, `u32`) are modelled as `Nat`, with explicit
  `% 256` / `% 65536` at the points where the Rust code performs a narrowing
  cast or serialises to bytes.
* `f32` sensor values are represented by their IEEE-754 bit pattern as a
  `Nat < 2^32`; the only operation the firmware performs on them is
  `to_be_bytes`, which is exactly the big-endian byte decomposition of that
  bit pattern.
* Byte buffers (`&mut [u8]`) are `List Nat`; an in-place `copy_from_slice`
  into `buf[pos..pos+n]` is modelled by `listWrite buf pos bytes`, which
  replaces that range and keeps the rest.
* Fallible Rust functions returning `Result<T, E>` become `Except E T`;
  functions that additionally mutate a caller-supplied buffer return the
  final buffer alongside the result, since in Rust the mutations persist
  even when `Err` is returned.
-/

set_option maxRecDepth 8000

namespace ModbusW5500

instance {ε α : Type} [DecidableEq ε] [DecidableEq α] :
    DecidableEq (Except ε α) := fun x y =>
  match x, y with
  | .error e, .error e' => decidable_of_iff (e = e') (by simp)
  | .error _, .ok _ => isFalse (fun h => by cases h)
  | .ok _, .error _ => isFalse (fun h => by cases h)
  | .ok a, .ok a' => decidable_of_iff (a = a') (by simp)

/-- Big-endian byte pair of a `u16` value, i.e. `value.to_be_bytes()`. -/
def be16 (v : Nat) : List Nat := [v / 256 % 256, v % 256]

/-- Big-endian bytes of a `u32` bit pattern, i.e. `value.to_be_bytes()`
for an `f32`/`u32` value with this pattern. -/
def u32beBytes (v : Nat) : List Nat :=
  [v / 16777216 % 256, v / 65536 % 256, v / 256 % 256, v % 256]

/-- `buf[pos..pos+bs.length] = bs`: the effect of `copy_from_slice` into a
subrange of a mutable byte buffer. -/
def listWrite (buf : List Nat) (pos : Nat) (bs : List Nat) : List Nat :=
  buf.take pos ++ bs ++ buf.drop (pos + bs.length)

/-- `SensorData` (common.rs:857-862). `temperature` and `humidity` hold the
IEEE-754 bit pattern of the Rust `f32` fields. -/
structure SensorData where
  temperature : Nat
  humidity : Nat
  status : Nat
  uptime : Nat
deriving DecidableEq

/-- Well-formedness: each field fits its Rust machine type
(`f32` bit pattern and `u32` in 32 bits, `u16` status). -/
def SensorData.wf (d : SensorData) : Prop :=
  d.temperature < 4294967296 ∧ d.humidity < 4294967296 ∧
  d.status < 65536 ∧ d.uptime < 4294967296

instance (d : SensorData) : Decidable d.wf := by
  unfold SensorData.wf; infer_instance

/-- `SensorData::default()` (common.rs:864-873): temperature 25.5
(bit pattern 0x41CC0000), humidity 60.0 (0x42700000), status OK, uptime 0. -/
def sensorDefault : SensorData :=
  { temperature := 1103626240, humidity := 1114636288, status := 0, uptime := 0 }

/-- `f32_to_registers` (common.rs:1216-1222): split the big-endian bytes of
the value into two big-endian `u16` register words, high half first. -/
def f32_to_registers (value : Nat) : List Nat :=
  let bytes := u32beBytes value
  [256 * bytes.getD 0 0 + bytes.getD 1 0, 256 * bytes.getD 2 0 + bytes.getD 3 0]

/-- `u32_to_registers` (common.rs:1225-1227): `[(value >> 16) as u16,
(value & 0xFFFF) as u16]`. -/
def u32_to_registers (value : Nat) : List Nat :=
  [value / 65536 % 65536, value % 65536]

/-- Modbus exception codes (common.rs:825-829). -/
def ILLEGAL_FUNCTION : Nat := 1
def ILLEGAL_DATA_ADDRESS : Nat := 2
def ILLEGAL_DATA_VALUE : Nat := 3

/-- The per-register `match reg_addr` block of `handle_read_registers`
(common.rs:899-933): `some` the register word for indices 0-9, `none` for the
out-of-range arm (which returns `IllegalDataAddress`). -/
def register_value (reg_addr : Nat) (d : SensorData) : Option Nat :=
  match reg_addr with
  | 0 => some ((f32_to_registers d.temperature).getD 0 0)
  | 1 => some ((f32_to_registers d.temperature).getD 1 0)
  | 2 => some ((f32_to_registers d.humidity).getD 0 0)
  | 3 => some ((f32_to_registers d.humidity).getD 1 0)
  | 4 => some d.status
  | 5 => some ((u32_to_registers d.uptime).getD 0 0)
  | 6 => some ((u32_to_registers d.uptime).getD 1 0)
  | 7 | 8 | 9 => some 0
  | _ => none

/-- One register word written big-endian into `response_buffer[pos..pos+2]`
(common.rs:939). -/
def writeReg (buf : List Nat) (pos v : Nat) : List Nat :=
  listWrite buf pos (be16 v)

/-- The `for i in 0..count` loop of `handle_read_registers`
(common.rs:895-941), with `reg_addr` the current register index and `r` the
registers still to serve.  An early `return Err` keeps the buffer writes
already performed, exactly as for a Rust `&mut` buffer. -/
def hrrLoop (d : SensorData) : Nat → Nat → List Nat → Nat → Except Nat Nat × List Nat
  | _, 0, buf, pos => (Except.ok pos, buf)
  | reg_addr, r + 1, buf, pos =>
    match register_value reg_addr d with
    | none => (Except.error ILLEGAL_DATA_ADDRESS, buf)
    | some v =>
      if pos + 2 > buf.length then (Except.error ILLEGAL_DATA_VALUE, buf)
      else hrrLoop d (reg_addr + 1) r (writeReg buf pos v) (pos + 2)

/-- `handle_read_registers` (common.rs:884-944).  Returns the Rust result
(`Ok(bytes_written)` or `Err(exception_code)`) together with the final state
of the caller's response buffer. -/
def handle_read_registers (start_addr count : Nat) (sensor_data : SensorData)
    (response_buffer : List Nat) : Except Nat Nat × List Nat :=
  hrrLoop sensor_data start_addr count response_buffer 0

/-- `parse_modbus_request` (common.rs:832-853). -/
def parse_modbus_request (data : List Nat) : Except Nat (Nat × Nat × Nat) :=
  if data.length < 5 then Except.error ILLEGAL_DATA_VALUE
  else
    let function_code := data.getD 0 0
    let start_addr := 256 * data.getD 1 0 + data.getD 2 0
    let count := 256 * data.getD 3 0 + data.getD 4 0
    if function_code ≠ 3 ∧ function_code ≠ 4 then Except.error ILLEGAL_FUNCTION
    else if count = 0 ∨ count > 125 then Except.error ILLEGAL_DATA_VALUE
    else Except.ok (function_code, start_addr, count)

/-- `MbapHeader` (common.rs:781-786). -/
structure MbapHeader where
  transaction_id : Nat
  protocol_id : Nat
  length : Nat
  unit_id : Nat
deriving DecidableEq

/-- Fields fit their Rust machine types (`u16`, `u16`, `u16`, `u8`). -/
def MbapHeader.wf (h : MbapHeader) : Prop :=
  h.transaction_id < 65536 ∧ h.protocol_id < 65536 ∧
  h.length < 65536 ∧ h.unit_id < 256

instance (h : MbapHeader) : Decidable h.wf := by
  unfold MbapHeader.wf; infer_instance

/-- `MbapHeader::from_bytes` (common.rs:790-801). -/
def MbapHeader.from_bytes (data : List Nat) : Except Unit MbapHeader :=
  if data.length < 7 then Except.error ()
  else Except.ok
    { transaction_id := 256 * data.getD 0 0 + data.getD 1 0
      protocol_id := 256 * data.getD 2 0 + data.getD 3 0
      length := 256 * data.getD 4 0 + data.getD 5 0
      unit_id := data.getD 6 0 }

/-- `MbapHeader::to_bytes` (common.rs:804-815): writes the three big-endian
`u16` fields into `buffer[0..6]` and the unit id into `buffer[6]`, leaving
`buffer[7..]` untouched. -/
def MbapHeader.to_bytes (h : MbapHeader) (buffer : List Nat) :
    Except Unit (List Nat) :=
  if buffer.length < 7 then Except.error ()
  else Except.ok
    (be16 h.transaction_id ++ be16 h.protocol_id ++ be16 h.length ++
      [h.unit_id] ++ buffer.drop 7)

/-- The byte string that the register loop serves for `count` registers
starting at `start`: each register word big-endian, in address order.
This is the pure function of `(start, count, snapshot)` that the response
data is shown to equal. -/
def regBytes (d : SensorData) : Nat → Nat → List Nat
  | _, 0 => []
  | a, r + 1 => be16 ((register_value a d).getD 0) ++ regBytes d (a + 1) r

/-- Formalisation of the spec's fixed register-map description (spec §3,
RegisterSpace): words 0-1 are the temperature's IEEE-754 big-endian bit
pattern split into two big-endian 16-bit halves high half first, words 2-3
humidity identically, word 4 status, words 5-6 uptime high half first, and
words 7-9 always zero. -/
def specRegisterWord (a : Nat) (d : SensorData) : Nat :=
  if a = 0 then d.temperature / 65536
  else if a = 1 then d.temperature % 65536
  else if a = 2 then d.humidity / 65536
  else if a = 3 then d.humidity % 65536
  else if a = 4 then d.status
  else if a = 5 then d.uptime / 65536
  else if a = 6 then d.uptime % 65536
  else 0

/-- The Modbus request-handling path of the steady-state session loop
(modbus_2.rs:134-232) for one received byte string in the ESTABLISHED
state: parse the MBAP header (needs ≥ 7 bytes), parse the PDU (needs ≥ 12
bytes total), build the response into a zeroed 260-byte buffer (echoed
header, recomputed length field, echoed function code, byte count, register
bytes) and send `response[..pos]`.  Returns the byte string handed to
`write_tx_data`, or `none` when the code sends nothing: too-short frame,
parse failure, or register-handler exception — in the two failure cases the
code only logs the exception code (the exception-response path is the TODO
at modbus_2.rs:210). -/
def sessionRespond (data : List Nat) (sensor_data : SensorData) :
    Option (List Nat) :=
  if data.length < 7 then none
  else
    match MbapHeader.from_bytes data with
    | Except.error _ => none
    | Except.ok mbap =>
      if data.length < 12 then none
      else
        match parse_modbus_request (data.drop 7) with
        | Except.error _ => none
        | Except.ok (fc, addr, count) =>
          match mbap.to_bytes (List.replicate 260 0) with
          | Except.error _ => none
          | Except.ok r1 =>
            let response_length := 1 + 1 + 1 + count * 2
            let r2 := listWrite r1 4 (be16 response_length)
            let r3 := (r2.set 7 fc).set 8 (count * 2 % 256)
            match handle_read_registers addr count sensor_data (r3.drop 9) with
            | (Except.ok data_len, tail) =>
              some ((r3.take 9 ++ tail).take (9 + data_len))
            | (Except.error _, _) => none

/-- W5500 socket-0 register addresses and command/mode/status constants
(common.rs:507-531). -/
def REG_S0_MR : Nat := 0
def REG_S0_CR : Nat := 1
def REG_S0_SR : Nat := 3
def REG_S0_PORT0 : Nat := 4
def SOCK_MODE_TCP : Nat := 1
def SOCK_CMD_OPEN : Nat := 1
def SOCK_CMD_LISTEN : Nat := 2
def SOCK_CMD_CLOSE : Nat := 16
def SOCK_STATUS_INIT : Nat := 19
def SOCK_STATUS_LISTEN : Nat := 20

/-- The buffer-indexing behaviour of `read_rx_data` (common.rs:418-448)
feeding `w5500_read_rx_buffer` (common.rs:702-738), as a function of the RX
received-size register value and the caller's buffer length (the session
loop passes a 260-byte buffer, modbus_2.rs:140).  `read_rx_data` returns 0
when nothing is pending, otherwise transfers `min(rx_size, buffer.len())`
bytes; `w5500_read_rx_buffer` then builds `len = 3 + buffer.len()` and
slices its two fixed 256-byte arrays as `tx_buf[..len]` / `rx_buf[..len]`.
`none` models the out-of-bounds slice panic taken when `len > 256`. -/
def read_rx_data_bytes (rx_size : Nat) (bufferLen : Nat) : Option Nat :=
  if rx_size = 0 then some 0
  else
    let bytes_to_read := min rx_size bufferLen
    if 3 + bytes_to_read ≤ 256 then some bytes_to_read else none

/-- One `let mut retries = 20; loop { read status; if expected break;
if retries == 0 return Err; retries -= 1; delay }` wait of `reopen_socket`
(common.rs:342-354, 369-381, 388-401): up to `retries + 1` status reads. -/
def pollStatus {σ : Type} (read : σ → Nat → Nat × σ) (expected : Nat) :
    Nat → σ → Except Unit Unit × σ
  | 0, s =>
    let p := read s REG_S0_SR
    if p.1 = expected then (Except.ok (), p.2) else (Except.error (), p.2)
  | retries + 1, s =>
    let p := read s REG_S0_SR
    if p.1 = expected then (Except.ok (), p.2)
    else pollStatus read expected retries p.2

/-- `reopen_socket` (common.rs:333-402) over an abstract controller:
`write s addr v` models `w5500_write_socket_register` and `read s addr`
models `w5500_read_socket_register` (infallible here: the modelled failures
are command/status timeouts, not SPI transport errors).  Sequence: Close
then wait for CLOSED (0x00), mode=TCP, source port 502 = [0x01, 0xF6],
Open then wait for INIT, Listen then wait for LISTEN; each wait uses the
fixed budget of 20 retries. -/
def reopen_socket {σ : Type} (write : σ → Nat → Nat → σ)
    (read : σ → Nat → Nat × σ) (s0 : σ) : Except Unit Unit × σ :=
  let s1 := write s0 REG_S0_CR SOCK_CMD_CLOSE
  match pollStatus read 0 20 s1 with
  | (Except.error _, s) => (Except.error (), s)
  | (Except.ok _, s2) =>
    let s3 := write s2 REG_S0_MR SOCK_MODE_TCP
    let s4 := write s3 REG_S0_PORT0 1
    let s5 := write s4 (REG_S0_PORT0 + 1) 246
    let s6 := write s5 REG_S0_CR SOCK_CMD_OPEN
    match pollStatus read SOCK_STATUS_INIT 20 s6 with
    | (Except.error _, s) => (Except.error (), s)
    | (Except.ok _, s7) =>
      let s8 := write s7 REG_S0_CR SOCK_CMD_LISTEN
      pollStatus read SOCK_STATUS_LISTEN 20 s8

/-- A fault-free simulated controller: a socket register file where every
command written to the command register takes effect immediately and the
command register clears; `trace` logs each register write in order. -/
structure SimCtrl where
  mr : Nat
  cr : Nat
  sr : Nat
  port0 : Nat
  port1 : Nat
  trace : List (Nat × Nat)
deriving DecidableEq

def simWrite (s : SimCtrl) (addr v : Nat) : SimCtrl :=
  let s' := { s with trace := s.trace ++ [(addr, v)] }
  if addr = REG_S0_CR then
    if v = SOCK_CMD_CLOSE then { s' with cr := 0, sr := 0 }
    else if v = SOCK_CMD_OPEN then
      let sr' := if s'.mr = SOCK_MODE_TCP then SOCK_STATUS_INIT else s'.sr
      { s' with cr := 0, sr := sr' }
    else if v = SOCK_CMD_LISTEN then
      let sr' := if s'.sr = SOCK_STATUS_INIT then SOCK_STATUS_LISTEN else s'.sr
      { s' with cr := 0, sr := sr' }
    else { s' with cr := 0 }
  else if addr = REG_S0_MR then { s' with mr := v }
  else if addr = REG_S0_PORT0 then { s' with port0 := v }
  else if addr = REG_S0_PORT0 + 1 then { s' with port1 := v }
  else s'

def simRead (s : SimCtrl) (addr : Nat) : Nat × SimCtrl :=
  (if addr = REG_S0_SR then s.sr
    else if addr = REG_S0_CR then s.cr
    else if addr = REG_S0_MR then s.mr
    else 0, s)

/-- A stuck simulated controller that never presents any expected status:
writes have no effect and every read returns 0x11 (a transitional status)
while bumping a poll counter. -/
def stuckWrite (polls : Nat) (_addr _v : Nat) : Nat := polls

def stuckRead (polls : Nat) (_addr : Nat) : Nat × Nat := (17, polls + 1)

theorem regBytes_length (d : SensorData) (r : Nat) :
    ∀ a, (regBytes d a r).length = 2 * r := by
  induction r with
  | zero => intro a; simp [regBytes]
  | succ r ih => intro a; simp [regBytes, be16, ih]; omega

theorem listWrite_nil (buf : List Nat) (pos : Nat) : listWrite buf pos [] = buf := by
  simp [listWrite]

theorem listWrite_length {buf : List Nat} {pos : Nat} {bs : List Nat}
    (h : pos + bs.length ≤ buf.length) :
    (listWrite buf pos bs).length = buf.length := by
  simp [listWrite]; omega

theorem listWrite_zero (buf : List Nat) (bs : List Nat) :
    listWrite buf 0 bs = bs ++ buf.drop bs.length := by
  simp [listWrite]

theorem listWrite_listWrite {buf : List Nat} {pos : Nat} (as bs : List Nat)
    (h : pos ≤ buf.length) :
    listWrite (listWrite buf pos as) (pos + as.length) bs =
      listWrite buf pos (as ++ bs) := by
  unfold listWrite
  have hT : (buf.take pos).length = pos := List.length_take_of_le h
  have e1 : (buf.take pos ++ (as ++ buf.drop (pos + as.length))).take
      (pos + as.length) = buf.take pos ++ as := by
    rw [show pos + as.length = (buf.take pos).length + as.length by rw [hT],
      List.take_append, List.take_left]
  have e2 : (buf.take pos ++ (as ++ buf.drop (pos + as.length))).drop
      (pos + as.length + bs.length) = buf.drop (pos + (as ++ bs).length) := by
    rw [show pos + as.length + bs.length =
        (buf.take pos).length + (as.length + bs.length) by rw [hT]; omega,
      List.drop_append, List.drop_append, List.drop_drop]
    congr 1
    simp
    omega
  simp only [List.append_assoc]
  rw [e1, e2]
  simp [List.append_assoc]

theorem register_value_eq_none {a : Nat} (d : SensorData) (h : 10 ≤ a) :
    register_value a d = none := by
  obtain ⟨b, rfl⟩ : ∃ b, a = b + 10 := ⟨a - 10, by omega⟩
  rfl

theorem register_value_isSome {a : Nat} (d : SensorData) (h : a < 10) :
    (register_value a d).isSome := by
  interval_cases a <;> rfl

/-- Success run of the register loop: when every requested index is in range
and the buffer is large enough, the loop returns `Ok` with `2*r` more bytes
and writes exactly `regBytes` at `pos`. -/
theorem hrrLoop_ok (d : SensorData) (r : Nat) :
    ∀ (a pos : Nat) (buf : List Nat), a + r ≤ 10 → pos + 2 * r ≤ buf.length →
    hrrLoop d a r buf pos =
      (Except.ok (pos + 2 * r), listWrite buf pos (regBytes d a r)) := by
  induction r with
  | zero => intro a pos buf _ _; simp [hrrLoop, regBytes, listWrite_nil]
  | succ r ih =>
    intro a pos buf ha hb
    have ha' : a < 10 := by omega
    obtain ⟨v, hv⟩ := Option.isSome_iff_exists.mp (register_value_isSome d ha')
    have hlen : (writeReg buf pos v).length = buf.length :=
      listWrite_length (by simp [be16]; omega)
    simp only [hrrLoop, hv]
    rw [if_neg (by omega)]
    rw [ih (a + 1) (pos + 2) _ (by omega) (by rw [hlen]; omega)]
    refine congrArg₂ Prod.mk (by rw [Except.ok.injEq]; omega) ?_
    unfold writeReg
    rw [show pos + 2 = pos + (be16 v).length by simp [be16],
      listWrite_listWrite _ _ (by omega)]
    congr 1
    simp [regBytes, hv]

/-- Failing run of the register loop: when the request crosses index 10, the
registers before index 10 are written into the buffer and the loop then
returns `IllegalDataAddress`, keeping those writes. -/
theorem hrrLoop_err (d : SensorData) (r : Nat) :
    ∀ (a pos : Nat) (buf : List Nat), 1 ≤ r → 10 < a + r →
    pos + 2 * r ≤ buf.length →
    hrrLoop d a r buf pos =
      (Except.error ILLEGAL_DATA_ADDRESS,
        listWrite buf pos (regBytes d a (10 - a))) := by
  induction r with
  | zero => intro a pos buf h1 _ _; omega
  | succ r ih =>
    intro a pos buf _ ha hb
    by_cases hc : a < 10
    · obtain ⟨v, hv⟩ := Option.isSome_iff_exists.mp (register_value_isSome d hc)
      have hlen : (writeReg buf pos v).length = buf.length :=
        listWrite_length (by simp [be16]; omega)
      simp only [hrrLoop, hv]
      rw [if_neg (by omega)]
      rw [ih (a + 1) (pos + 2) _ (by omega) (by omega) (by rw [hlen]; omega)]
      refine congrArg₂ Prod.mk rfl ?_
      unfold writeReg
      rw [show pos + 2 = pos + (be16 v).length by simp [be16],
        listWrite_listWrite _ _ (by omega)]
      congr 1
      rw [show 10 - a = (10 - (a + 1)) + 1 by omega]
      simp [regBytes, hv]
    · have hnone : register_value a d = none := register_value_eq_none d (by omega)
      simp only [hrrLoop, hnone]
      rw [show 10 - a = 0 by omega]
      simp [regBytes, listWrite_nil]

/-- Inversion: an `Ok` result of the register loop (for at least one
register) forces the whole request inside indices 0-9 and inside the
buffer. -/
theorem hrrLoop_ok_inv (d : SensorData) (r : Nat) :
    ∀ (a pos n : Nat) (buf buf' : List Nat), 1 ≤ r →
    hrrLoop d a r buf pos = (Except.ok n, buf') →
    a + r ≤ 10 ∧ pos + 2 * r ≤ buf.length := by
  induction r with
  | zero => intro a pos n buf buf' h1 _; omega
  | succ r ih =>
    intro a pos n buf buf' _ heq
    simp only [hrrLoop] at heq
    cases hv : register_value a d with
    | none => rw [hv] at heq; simp at heq
    | some v =>
      rw [hv] at heq
      simp only at heq
      by_cases hb : pos + 2 > buf.length
      · rw [if_pos hb] at heq; simp at heq
      · rw [if_neg hb] at heq
        have ha : a < 10 := by
          by_contra hcon
          rw [register_value_eq_none d (by omega)] at hv
          cases hv
        have hlen : (writeReg buf pos v).length = buf.length :=
          listWrite_length (by simp [be16]; omega)
        cases r with
        | zero => constructor <;> omega
        | succ r' =>
          obtain ⟨h1, h2⟩ := ih (a + 1) (pos + 2) n _ buf' (by omega) heq
          rw [hlen] at h2
          constructor <;> omega

/-- C1: for every `start` and `count` with `start + count ≤ 10` and a
response buffer of at least `2*count` bytes, `handle_read_registers` returns
`Ok` with exactly `2*count` bytes written, and the written bytes
(`regBytes d start count`, the first `2*count` bytes of the final buffer)
are a pure function of `(start, count, snapshot)` only. -/
theorem C1_read_registers_ok (start count : Nat) (d : SensorData)
    (buf : List Nat) (hrange : start + count ≤ 10)
    (hbuf : 2 * count ≤ buf.length) :
    handle_read_registers start count d buf =
      (Except.ok (2 * count), regBytes d start count ++ buf.drop (2 * count)) := by
  unfold handle_read_registers
  rw [hrrLoop_ok d count start 0 buf hrange (by omega), listWrite_zero,
    regBytes_length]
  norm_num

theorem C1_read_registers_ok_witness :
    handle_read_registers 0 7 sensorDefault (List.replicate 14 0) =
      (Except.ok (2 * 7),
        regBytes sensorDefault 0 7 ++ (List.replicate 14 0).drop (2 * 7)) :=
  C1_read_registers_ok 0 7 sensorDefault (List.replicate 14 0) (by decide)
    (by decide)

/-- C2 counterexample: at `start = 5`, `count = 6` (so `start + count > 10`),
with uptime 1 and an all-0xFF 12-byte buffer, the call does return
`IllegalDataAddress` (0x02) — but it HAS written bytes into the response
buffer (the uptime registers at indices 5-6 and the reserved zeros), so the
claimed "writes no bytes" / all-or-nothing contract fails. -/
theorem C2_counterexample :
    (handle_read_registers 5 6 ⟨0, 0, 0, 1⟩ (List.replicate 12 255)).1 =
        Except.error ILLEGAL_DATA_ADDRESS ∧
      (handle_read_registers 5 6 ⟨0, 0, 0, 1⟩ (List.replicate 12 255)).2 ≠
        List.replicate 12 255 := by decide

/-- C2 (amended): for every `count` in [1,125] and `start` with
`start + count > 10` (buffer at least `2*count` bytes), the call returns
`IllegalDataAddress` (0x02), but the registers at the in-range indices
before index 10 have already been written into the response buffer when the
error is returned (nothing is written when `start ≥ 10`, since then
`10 - start = 0`). -/
theorem C2_read_registers_err (start count : Nat) (d : SensorData)
    (buf : List Nat) (hc1 : 1 ≤ count) (_hc2 : count ≤ 125)
    (hrange : 10 < start + count) (hbuf : 2 * count ≤ buf.length) :
    handle_read_registers start count d buf =
      (Except.error ILLEGAL_DATA_ADDRESS,
        regBytes d start (10 - start) ++ buf.drop (2 * (10 - start))) := by
  unfold handle_read_registers
  rw [hrrLoop_err d count start 0 buf hc1 hrange (by omega), listWrite_zero,
    regBytes_length]

theorem C2_read_registers_err_witness :
    handle_read_registers 8 5 sensorDefault (List.replicate 10 0) =
      (Except.error ILLEGAL_DATA_ADDRESS,
        regBytes sensorDefault 8 (10 - 8) ++
          (List.replicate 10 0).drop (2 * (10 - 8))) :=
  C2_read_registers_err 8 5 sensorDefault (List.replicate 10 0) (by decide)
    (by decide) (by decide) (by decide)

/-- C4: the register map served by `handle_read_registers` is exactly the
fixed mapping the spec describes: reading the single register `a < 10`
yields the big-endian bytes of `specRegisterWord a d`, and every index
`a ≥ 10` is an addressing error (`IllegalDataAddress`, buffer untouched). -/
theorem C4_register_map (d : SensorData) (hwf : d.wf) (a : Nat) :
    (a < 10 →
      handle_read_registers a 1 d [255, 255] =
        (Except.ok 2,
          [specRegisterWord a d / 256, specRegisterWord a d % 256])) ∧
    (10 ≤ a →
      handle_read_registers a 1 d [255, 255] =
        (Except.error ILLEGAL_DATA_ADDRESS, [255, 255])) := by
  obtain ⟨ht, hh, hs, hu⟩ := hwf
  constructor
  · intro ha
    unfold handle_read_registers
    rw [hrrLoop_ok d 1 a 0 _ (by omega) (by simp)]
    interval_cases a <;>
      simp [regBytes, listWrite, be16, register_value, f32_to_registers,
        u32beBytes, u32_to_registers, specRegisterWord] <;>
      omega
  · intro ha
    have hnone : register_value a d = none := register_value_eq_none d ha
    unfold handle_read_registers
    simp [hrrLoop, hnone]

theorem C4_register_map_witness :
    handle_read_registers 4 1 sensorDefault [255, 255] =
      (Except.ok 2,
        [specRegisterWord 4 sensorDefault / 256,
          specRegisterWord 4 sensorDefault % 256]) :=
  (C4_register_map sensorDefault (by decide) 4).1 (by decide)

/-- C5: `parse_modbus_request` returns `Ok` iff the input has at least 5
bytes, the function code is 0x03 or 0x04, and the count is in [1,125]; with
at least 5 bytes, a function code outside {0x03,0x04} yields
`IllegalFunction` (0x01) and a count of 0 or above 125 yields
`IllegalDataValue` (0x03); and it rejects empty input, input shorter than 5
bytes, function code 0x05, count 0, and count 126. -/
theorem C5_parse (data : List Nat) :
    ((∃ r, parse_modbus_request data = Except.ok r) ↔
      (5 ≤ data.length ∧ (data.getD 0 0 = 3 ∨ data.getD 0 0 = 4) ∧
        1 ≤ 256 * data.getD 3 0 + data.getD 4 0 ∧
        256 * data.getD 3 0 + data.getD 4 0 ≤ 125)) ∧
    (5 ≤ data.length → ¬(data.getD 0 0 = 3 ∨ data.getD 0 0 = 4) →
      parse_modbus_request data = Except.error ILLEGAL_FUNCTION) ∧
    (5 ≤ data.length → (data.getD 0 0 = 3 ∨ data.getD 0 0 = 4) →
      (256 * data.getD 3 0 + data.getD 4 0 = 0 ∨
        125 < 256 * data.getD 3 0 + data.getD 4 0) →
      parse_modbus_request data = Except.error ILLEGAL_DATA_VALUE) ∧
    (parse_modbus_request [] = Except.error ILLEGAL_DATA_VALUE ∧
      parse_modbus_request [3, 0, 0, 0] = Except.error ILLEGAL_DATA_VALUE ∧
      parse_modbus_request [5, 0, 0, 0, 1] = Except.error ILLEGAL_FUNCTION ∧
      parse_modbus_request [3, 0, 0, 0, 0] = Except.error ILLEGAL_DATA_VALUE ∧
      parse_modbus_request [3, 0, 0, 0, 126] = Except.error ILLEGAL_DATA_VALUE) := by
  refine ⟨⟨?_, ?_⟩, ?_, ?_, by decide⟩
  · rintro ⟨r, hr⟩
    simp only [parse_modbus_request] at hr
    split at hr
    · exact absurd hr (by simp)
    · split at hr
      · exact absurd hr (by simp)
      · split at hr
        · exact absurd hr (by simp)
        · refine ⟨by omega, by tauto, by omega, by omega⟩
  · rintro ⟨h1, h2, h3, h4⟩
    refine ⟨(data.getD 0 0, 256 * data.getD 1 0 + data.getD 2 0,
      256 * data.getD 3 0 + data.getD 4 0), ?_⟩
    simp only [parse_modbus_request]
    rw [if_neg (by omega), if_neg (by tauto), if_neg (by omega)]
  · intro h1 h2
    simp only [parse_modbus_request]
    rw [if_neg (by omega), if_pos (by tauto)]
  · intro h1 h2 h3
    simp only [parse_modbus_request]
    rw [if_neg (by omega), if_neg (by tauto), if_pos (by omega)]

theorem C5_parse_witness :
    parse_modbus_request [5, 0, 0, 0, 1] = Except.error ILLEGAL_FUNCTION :=
  (C5_parse [5, 0, 0, 0, 1]).2.1 (by decide) (by decide)

/-- `from_bytes` on an explicit 7-byte-or-longer buffer. -/
theorem MbapHeader.from_bytes_cons (b0 b1 b2 b3 b4 b5 b6 : Nat)
    (rest : List Nat) :
    MbapHeader.from_bytes (b0 :: b1 :: b2 :: b3 :: b4 :: b5 :: b6 :: rest) =
      Except.ok ⟨256 * b0 + b1, 256 * b2 + b3, 256 * b4 + b5, b6⟩ := by
  unfold MbapHeader.from_bytes
  rw [if_neg (by simp only [List.length_cons]; omega)]
  rfl

/-- C7: every well-formed `MbapHeader` written with `to_bytes` into a buffer
of at least 7 bytes parses back with `from_bytes` to exactly the same
header, and `from_bytes` fails on every input shorter than 7 bytes. -/
theorem C7_mbap_roundtrip (h : MbapHeader) (buf : List Nat) (hwf : h.wf)
    (hlen : 7 ≤ buf.length) :
    (∃ out, h.to_bytes buf = Except.ok out ∧
      MbapHeader.from_bytes out = Except.ok h) ∧
    (∀ data : List Nat, data.length < 7 →
      MbapHeader.from_bytes data = Except.error ()) := by
  obtain ⟨ti, pi, ln, ui⟩ := h
  obtain ⟨h1, h2, h3, h4⟩ := hwf
  dsimp only at h1 h2 h3 h4
  constructor
  · have hout : MbapHeader.to_bytes ⟨ti, pi, ln, ui⟩ buf =
        Except.ok (ti / 256 % 256 :: ti % 256 :: pi / 256 % 256 :: pi % 256 ::
          ln / 256 % 256 :: ln % 256 :: ui :: buf.drop 7) := by
      unfold MbapHeader.to_bytes
      rw [if_neg (by omega)]
      simp [be16]
    refine ⟨_, hout, ?_⟩
    rw [MbapHeader.from_bytes_cons]
    refine congrArg Except.ok ?_
    simp only [MbapHeader.mk.injEq]
    refine ⟨by omega, by omega, by omega, trivial⟩
  · intro data hd
    unfold MbapHeader.from_bytes
    rw [if_pos hd]

theorem C7_mbap_roundtrip_witness :
    (∃ out, MbapHeader.to_bytes ⟨513, 0, 6, 17⟩ (List.replicate 9 1) =
        Except.ok out ∧
      MbapHeader.from_bytes out = Except.ok ⟨513, 0, 6, 17⟩) ∧
    (∀ data : List Nat, data.length < 7 →
      MbapHeader.from_bytes data = Except.error ()) :=
  C7_mbap_roundtrip ⟨513, 0, 6, 17⟩ (List.replicate 9 1) (by decide) (by decide)

/-- C9: encoding any f32 bit pattern with `f32_to_registers` and
reconstructing the 32-bit pattern from the big-endian concatenation of the
two 16-bit halves (high half first) reproduces the original pattern
bit-for-bit, and both halves fit in 16 bits. -/
theorem C9_f32_roundtrip (bits : Nat) (h : bits < 4294967296) :
    (f32_to_registers bits).getD 0 0 * 65536 +
        (f32_to_registers bits).getD 1 0 = bits ∧
      (f32_to_registers bits).getD 0 0 < 65536 ∧
      (f32_to_registers bits).getD 1 0 < 65536 := by
  simp only [f32_to_registers, u32beBytes, List.getD_cons_zero,
    List.getD_cons_succ]
  refine ⟨by omega, by omega, by omega⟩

theorem C9_f32_roundtrip_witness :
    (f32_to_registers 1103626240).getD 0 0 * 65536 +
        (f32_to_registers 1103626240).getD 1 0 = 1103626240 ∧
      (f32_to_registers 1103626240).getD 0 0 < 65536 ∧
      (f32_to_registers 1103626240).getD 1 0 < 65536 :=
  C9_f32_roundtrip 1103626240 (by decide)

/-- A successful parse forces a register count in [1,125]. -/
theorem parse_ok_bounds {data : List Nat} {fc addr count : Nat}
    (h : parse_modbus_request data = Except.ok (fc, addr, count)) :
    1 ≤ count ∧ count ≤ 125 := by
  simp only [parse_modbus_request] at h
  split at h
  · exact absurd h (by simp)
  split at h
  · exact absurd h (by simp)
  split at h
  · exact absurd h (by simp)
  · simp only [Except.ok.injEq, Prod.mk.injEq] at h
    obtain ⟨-, -, hc⟩ := h
    subst hc
    omega

/-- C3: the code never sends the required exception response.  For the
well-formed request `start=8, count=5` (transaction 1, unit 0, FC3) the
claim requires an exception frame `[.., fc|0x80, 0x02]` with MBAP length 3,
but the session loop's handling path sends nothing at all: the
`Err(exception_code)` arm only logs (modbus_2.rs:208-211, TODO left in the
code). -/
theorem C3_no_exception_response :
    sessionRespond [0, 1, 0, 0, 0, 6, 0, 3, 0, 8, 0, 5] sensorDefault =
      none := by decide

/-- The response buffer after the MBAP echo, length-field rewrite, function
code and byte count writes: header bytes at 0-3 and 6, the recomputed
length at 4-5, function code at 7, byte count at 8, zeros beyond. -/
theorem respBuffer_shape (c0 c1 c2 c3 c4 c5 c6 rl fcv bcv : Nat) :
    ((listWrite (c0 :: c1 :: c2 :: c3 :: c4 :: c5 :: c6 ::
        List.replicate 253 0) 4 (be16 rl)).set 7 fcv).set 8 bcv =
      c0 :: c1 :: c2 :: c3 :: (rl / 256 % 256) :: (rl % 256) :: c6 :: fcv ::
        bcv :: List.replicate 251 0 := rfl

theorem respBuffer_drop9 (c0 c1 c2 c3 c4 c5 c6 c7 c8 : Nat) :
    (c0 :: c1 :: c2 :: c3 :: c4 :: c5 :: c6 :: c7 :: c8 ::
      List.replicate 251 0).drop 9 = List.replicate 251 0 := rfl

theorem respBuffer_take9 (c0 c1 c2 c3 c4 c5 c6 c7 c8 : Nat) :
    (c0 :: c1 :: c2 :: c3 :: c4 :: c5 :: c6 :: c7 :: c8 ::
      List.replicate 251 0).take 9 =
      [c0, c1, c2, c3, c4, c5, c6, c7, c8] := rfl

/-- C8: every successfully answered read request gets a response that
echoes the request's transaction id (bytes 0-1, part of the echoed bytes
0-3) and unit id (byte 6), carries the recomputed length field
`1+1+1+2*count` big-endian at bytes 4-5, and continues with the echoed
function code, the byte count `2*count`, and the register bytes. -/
theorem C8_response_frame (d : SensorData) (frame resp : List Nat)
    (hbytes : ∀ b ∈ frame, b < 256)
    (hsome : sessionRespond frame d = some resp) :
    ∃ fc addr count,
      parse_modbus_request (frame.drop 7) = Except.ok (fc, addr, count) ∧
      resp = frame.take 4 ++ [0, 3 + 2 * count] ++
        [frame.getD 6 0, fc, 2 * count] ++ regBytes d addr count := by
  have h7 : ¬ frame.length < 7 := by
    intro hlt
    unfold sessionRespond at hsome
    rw [if_pos hlt] at hsome
    exact Option.noConfusion hsome
  obtain ⟨b0, b1, b2, b3, b4, b5, b6, rest, rfl⟩ :
      ∃ b0 b1 b2 b3 b4 b5 b6 rest,
        frame = b0 :: b1 :: b2 :: b3 :: b4 :: b5 :: b6 :: rest := by
    rcases frame with - | ⟨b0, - | ⟨b1, - | ⟨b2, - | ⟨b3, - | ⟨b4, - | ⟨b5,
      - | ⟨b6, rest⟩⟩⟩⟩⟩⟩⟩
    · simp at h7
    · simp at h7
    · simp at h7
    · simp at h7
    · simp at h7
    · simp at h7
    · simp at h7
    · exact ⟨b0, b1, b2, b3, b4, b5, b6, rest, rfl⟩
  have hb0 : b0 < 256 := hbytes b0 (by simp)
  have hb1 : b1 < 256 := hbytes b1 (by simp)
  have hb2 : b2 < 256 := hbytes b2 (by simp)
  have hb3 : b3 < 256 := hbytes b3 (by simp)
  simp only [sessionRespond] at hsome
  rw [if_neg h7, MbapHeader.from_bytes_cons] at hsome
  dsimp only at hsome
  split at hsome
  · exact Option.noConfusion hsome
  split at hsome
  · exact Option.noConfusion hsome
  next fc addr count heq2 =>
  rw [show MbapHeader.to_bytes ⟨256 * b0 + b1, 256 * b2 + b3, 256 * b4 + b5, b6⟩
        (List.replicate 260 0) =
      Except.ok ((256 * b0 + b1) / 256 % 256 :: (256 * b0 + b1) % 256 ::
        (256 * b2 + b3) / 256 % 256 :: (256 * b2 + b3) % 256 ::
        (256 * b4 + b5) / 256 % 256 :: (256 * b4 + b5) % 256 :: b6 ::
        List.replicate 253 0) from by
    unfold MbapHeader.to_bytes
    rw [if_neg (by decide)]
    rfl] at hsome
  dsimp only at hsome
  rw [respBuffer_shape, respBuffer_drop9, respBuffer_take9] at hsome
  obtain ⟨hc1, hc125⟩ := parse_ok_bounds heq2
  split at hsome
  case _ data_len tail heq3 =>
    unfold handle_read_registers at heq3
    obtain ⟨hrange, hlen2⟩ :=
      hrrLoop_ok_inv d count addr 0 data_len (List.replicate 251 0) tail hc1 heq3
    rw [hrrLoop_ok d count addr 0 (List.replicate 251 0) hrange hlen2] at heq3
    simp only [Prod.mk.injEq, Except.ok.injEq] at heq3
    obtain ⟨hdl, htail⟩ := heq3
    rw [Option.some.injEq] at hsome
    subst hdl htail
    refine ⟨fc, addr, count, heq2, ?_⟩
    rw [← hsome]
    rw [listWrite_zero]
    rw [show (0 : Nat) + 2 * count = 2 * count from by omega]
    rw [show (9 : Nat) + 2 * count =
      ([( 256 * b0 + b1) / 256 % 256, (256 * b0 + b1) % 256,
        (256 * b2 + b3) / 256 % 256, (256 * b2 + b3) % 256,
        (1 + 1 + 1 + count * 2) / 256 % 256, (1 + 1 + 1 + count * 2) % 256,
        b6, fc, count * 2 % 256] : List Nat).length + 2 * count from by simp]
    rw [List.take_append]
    rw [List.take_left' (by rw [regBytes_length])]
    have e0 : (256 * b0 + b1) / 256 % 256 = b0 := by omega
    have e1 : (256 * b0 + b1) % 256 = b1 := by omega
    have e2 : (256 * b2 + b3) / 256 % 256 = b2 := by omega
    have e3 : (256 * b2 + b3) % 256 = b3 := by omega
    have e4 : (1 + 1 + 1 + count * 2) / 256 % 256 = 0 := by omega
    have e5 : (1 + 1 + 1 + count * 2) % 256 = 3 + 2 * count := by omega
    have e8 : count * 2 % 256 = 2 * count := by omega
    rw [e0, e1, e2, e3, e4, e5, e8]
    rfl
  case _ =>
    exact Option.noConfusion hsome

theorem C8_response_frame_witness :
    (∀ b ∈ ([0, 1, 0, 0, 0, 6, 0, 3, 0, 0, 0, 7] : List Nat), b < 256) ∧
    ∃ fc addr count,
      parse_modbus_request
        (([0, 1, 0, 0, 0, 6, 0, 3, 0, 0, 0, 7] : List Nat).drop 7) =
          Except.ok (fc, addr, count) ∧
      (sessionRespond [0, 1, 0, 0, 0, 6, 0, 3, 0, 0, 0, 7]
          sensorDefault).getD [] =
        ([0, 1, 0, 0, 0, 6, 0, 3, 0, 0, 0, 7] : List Nat).take 4 ++
          [0, 3 + 2 * count] ++
          [([0, 1, 0, 0, 0, 6, 0, 3, 0, 0, 0, 7] : List Nat).getD 6 0, fc,
            2 * count] ++ regBytes sensorDefault addr count :=
  ⟨by decide,
    C8_response_frame sensorDefault [0, 1, 0, 0, 0, 6, 0, 3, 0, 0, 0, 7]
      ((sessionRespond [0, 1, 0, 0, 0, 6, 0, 3, 0, 0, 0, 7]
        sensorDefault).getD []) (by decide) (by decide)⟩

/-- C6 is violated by the code: with 254 or more bytes pending in the RX
received-size register and the session loop's 260-byte buffer,
`w5500_read_rx_buffer` is asked for 254 bytes and slices its 256-byte
arrays with `len = 257`, which panics (slice range out of bounds); 253
pending bytes are still served.  The 256-byte arrays contradict the code's
own comment there, "Max Modbus frame is 260 bytes". -/
theorem C6_rx_buffer_overrun :
    read_rx_data_bytes 253 260 = some 253 ∧
      read_rx_data_bytes 254 260 = none ∧
      3 + min 254 260 > 256 := by decide

/-- C10: under the fault-free simulated controller (starting from
ESTABLISHED, status 0x17), `reopen_socket` performs exactly the command
sequence Close, mode=TCP, source-port bytes 0x01 0xF6, Open, Listen — with
the CLOSED / INIT / LISTEN status waits in between — and returns `Ok`;
under the stuck controller it returns `Err` (a recoverable result, not a
panic or an unbounded loop) after exactly 21 status polls, the fixed retry
budget of the first wait. -/
theorem C10_reopen_socket :
    (reopen_socket simWrite simRead ⟨0, 0, 23, 0, 0, []⟩).1 = Except.ok () ∧
      (reopen_socket simWrite simRead ⟨0, 0, 23, 0, 0, []⟩).2.trace =
        [(REG_S0_CR, SOCK_CMD_CLOSE), (REG_S0_MR, SOCK_MODE_TCP),
          (REG_S0_PORT0, 1), (REG_S0_PORT0 + 1, 246),
          (REG_S0_CR, SOCK_CMD_OPEN), (REG_S0_CR, SOCK_CMD_LISTEN)] ∧
      reopen_socket stuckWrite stuckRead 0 = (Except.error (), 21) := by
  decide

end ModbusW5500
